import Mathlib

/-!
Verification of the Cologne Transportation Navigator core against its
natural-language specification.

The development shallowly embeds the data model and the pure decision
logic of the four source modules:

* the Gemini analysis service (retry wrapper `retryGeminiCall`, street
  analysis `analyzeStreetConditions` with its merge and fallback paths),
* the OSRM routing service (`calculateRoute`),
* the session orchestrator (`App.tsx`: `handleLocationSelect` route
  branch, `handleModeSwitch`),
* the route animator (`AnimatedRouteMarker` in the map component).

Network calls are abstracted as explicit outcome parameters: a remote
call becomes a function from the attempt number (for the retry wrapper)
or from the request (for routing) to a response value, and the
classified success/failure outcome of a generative call is passed to the
analysis function directly.  JavaScript numbers are modelled as `ℚ`
(coordinates, distances, durations) and `Int`/`Nat` (scores, counters);
JS string truthiness (empty string is falsy) is modelled explicitly.
-/

/-! ## Data model (types.ts) -/

/-- Vehicle classes from `types.ts` (`VehicleType`). -/
inductive VehicleType
  | car
  | lkwLight
  | lkwHeavy
  deriving DecidableEq, Repr

/-- Geographic coordinate (`Coordinates` in `types.ts`). -/
structure Coordinates where
  lat : ℚ
  lng : ℚ
  deriving DecidableEq, Repr

/-- Verified street attributes from the Overpass lookup
(`OsmStreetDetails` in `types.ts`).  Optional string fields model the
optional TS fields. -/
structure OsmStreetDetails where
  name : String
  type : String
  width : Option String
  lanes : Option String
  maxspeed : Option String
  surface : Option String
  deriving DecidableEq, Repr

/-- The street analysis record delivered to the UI (`StreetAnalysis` in
`types.ts`). -/
structure StreetAnalysis where
  streetName : String
  isTruckSuitable : Bool
  restrictionReason : Option String
  maxWeight : Option String
  streetWidth : Option String
  lanes : Option String
  congestionScore : Int
  congestionCurve : List Int
  rushHourTimes : List String
  description : String
  alternativeRoutes : List String
  lastUpdated : String
  deriving DecidableEq, Repr

/-- Route-level analysis (`RouteAnalysis` in `types.ts`). -/
structure RouteAnalysis where
  suitabilityScore : Int
  isRouteSuitable : Bool
  majorWarnings : List String
  trafficPrediction : String
  problematicStreets : List String
  estimatedDurationAdjustment : String
  deriving DecidableEq, Repr

/-- Live traffic snapshot (`LiveTrafficData` in `types.ts`); a source is
a (title, uri) pair. -/
structure LiveTrafficData where
  summary : String
  lastUpdated : String
  sources : List (String × String)
  deriving DecidableEq, Repr

/-- Weather snapshot (`WeatherData` in `types.ts`). -/
structure WeatherData where
  temp : String
  condition : String
  impact : String
  isSevere : Bool
  deriving DecidableEq, Repr

/-- Marker categories (`MapMarkerData.type` in `types.ts`). -/
inductive MarkerType
  | hotspot
  | userSelected
  | routePoint
  deriving DecidableEq, Repr

/-- Map marker (`MapMarkerData` in `types.ts`). -/
structure MapMarkerData where
  id : String
  position : Coordinates
  name : String
  type : MarkerType
  index : Option Nat
  deriving DecidableEq, Repr

/-! ## Error classification (geminiService.ts) -/

/-- The shape of a transport error as inspected by the service code:
`error.status`, `error.code` and `error.message` may each be absent. -/
structure GemError where
  status : Option Int
  code : Option Int
  message : Option String
  deriving DecidableEq, Repr

/-- Is `pat` a prefix of `s` (character lists)?  Used to build the
substring test that models `String.prototype.includes`. -/
def charsHasPre : List Char → List Char → Bool
  | [], _ => true
  | _ :: _, [] => false
  | a :: pr, b :: sr => a == b && charsHasPre pr sr

/-- Does `pat` occur as a contiguous substring of `s`? -/
def charsHasSub (pat : List Char) : List Char → Bool
  | [] => charsHasPre pat []
  | b :: sr => charsHasPre pat (b :: sr) || charsHasSub pat (sr)

/-- Model of JavaScript `s.includes(pat)`. -/
def strIncludes (s pat : String) : Bool :=
  charsHasSub pat.data s.data

/-- Rate-limit classification used identically at every catch site in
`geminiService.ts`:
`error.status === 429 || error.code === 429 || error.message?.includes('429')
 || error.message?.includes('quota') || error.message?.includes('RESOURCE_EXHAUSTED')`. -/
def isRateLimitError (e : GemError) : Bool :=
  e.status == some 429 || e.code == some 429 ||
    (match e.message with
     | some m => strIncludes m "429" || strIncludes m "quota" ||
         strIncludes m "RESOURCE_EXHAUSTED"
     | none => false)

/-! ## Street analysis: parse result, merge, and fallbacks
(`analyzeStreetConditions` in geminiService.ts) -/

/-- The parsed generator payload, `JSON.parse(text) as
Omit<StreetAnalysis, 'lastUpdated'>`.  Fields not marked `required` in
`analysisSchema` are optional; `congestionCurve` is kept optional
because the merge code defends against its absence with `?.`. -/
structure GenData where
  streetName : String
  isTruckSuitable : Bool
  restrictionReason : Option String
  maxWeight : Option String
  streetWidth : Option String
  congestionScore : Int
  congestionCurve : Option (List Int)
  rushHourTimes : List String
  description : String
  alternativeRoutes : List String
  deriving DecidableEq, Repr

/-- JavaScript `a || b` on an optional string: a present, nonempty
string wins; `undefined` and the empty string fall through. -/
def jsOrStr (a b : Option String) : Option String :=
  match a with
  | some s => if s = "" then b else some s
  | none => b

/-- JavaScript truthiness fallback on a plain string:
`a || dflt` where an empty `a` is falsy. -/
def jsOrDefault (a dflt : String) : String :=
  if a = "" then dflt else a

/-- Model of `osmData?.width ? osmData.width + "m" : undefined`:
format the verified width for the UI, treating an empty width string as
absent. -/
def osmWidthLabel (w : Option String) : Option String :=
  match w with
  | some s => if s = "" then none else some (s ++ "m")
  | none => none

/-- The fixed neutral curve substituted when the generated
congestion-curve array does not have length 12. -/
def defaultCurve : List Int := [2, 2, 3, 7, 9, 6, 5, 8, 9, 5, 3, 2]

/-- The success-path merge of `analyzeStreetConditions`: spread the
generated data, inject the verified width when the generated one is
falsy, always take `lanes` from the verified context, and replace the
congestion curve by `defaultCurve` unless the generated array has
exactly 12 entries.  `ts` stands for `new Date().toLocaleTimeString()`. -/
def mergeAnalysis (data : GenData) (osmData : Option OsmStreetDetails)
    (ts : String) : StreetAnalysis :=
  { streetName := data.streetName
    isTruckSuitable := data.isTruckSuitable
    restrictionReason := data.restrictionReason
    maxWeight := data.maxWeight
    streetWidth := jsOrStr data.streetWidth
      (match osmData with
       | some o => osmWidthLabel o.width
       | none => none)
    lanes := osmData.bind (fun o => o.lanes)
    congestionScore := data.congestionScore
    congestionCurve :=
      match data.congestionCurve with
      | some l => if l.length = 12 then l else defaultCurve
      | none => defaultCurve
    rushHourTimes := data.rushHourTimes
    description := data.description
    alternativeRoutes := data.alternativeRoutes
    lastUpdated := ts }

/-- The degraded result returned when the catch-site classification says
rate-limited (quota exhausted). -/
def degradedFallback (osmData : Option OsmStreetDetails) (ts : String) :
    StreetAnalysis :=
  { streetName :=
      match osmData with
      | some o => jsOrDefault o.name "Service Busy (High Traffic)"
      | none => "Service Busy (High Traffic)"
    isTruckSuitable := true
    restrictionReason := some "AI Analysis unavailable. Check local signs."
    maxWeight := none
    streetWidth :=
      match osmData with
      | some o =>
          match osmWidthLabel o.width with
          | some w => some w
          | none => some "Unknown"
      | none => some "Unknown"
    lanes := osmData.bind (fun o => o.lanes)
    congestionScore := 5
    congestionCurve := [2, 2, 2, 5, 5, 5, 5, 5, 5, 5, 2, 2]
    rushHourTimes := ["Unknown"]
    description := "The AI analysis service is currently experiencing high demand. Please rely on standard physical street data and local signage. This street has not been fully verified for logistical constraints at this moment."
    alternativeRoutes := []
    lastUpdated := ts }

/-- The failed result returned for any non-rate-limited failure. -/
def failedFallback (osmData : Option OsmStreetDetails) (ts : String) :
    StreetAnalysis :=
  { streetName :=
      match osmData with
      | some o => jsOrDefault o.name "Analysis Failed"
      | none => "Analysis Failed"
    isTruckSuitable := false
    restrictionReason := none
    maxWeight := none
    streetWidth := none
    lanes := none
    congestionScore := 0
    congestionCurve := [0, 0, 0, 0, 0, 0, 0, 0, 0, 0, 0, 0]
    rushHourTimes := []
    description := "Could not retrieve data from AI service. Please check API key configuration."
    alternativeRoutes := []
    lastUpdated := ts }

/-- The total behaviour of `analyzeStreetConditions` as a function of
the ultimate outcome of the (retried) generative call: a successful
parse is merged, a failure is classified and mapped to one of the two
fallbacks.  The function is total: the TS function never rethrows to its
caller. -/
def analyzeStreetConditions (outcome : Except GemError GenData)
    (osmData : Option OsmStreetDetails) (ts : String) : StreetAnalysis :=
  match outcome with
  | Except.ok data => mergeAnalysis data osmData ts
  | Except.error e =>
      if isRateLimitError e then degradedFallback osmData ts
      else failedFallback osmData ts

/-! ## Retry wrapper (`retryGeminiCall` in geminiService.ts) -/

/-- Execution record of one run of the retry wrapper: the propagated
result, the total number of attempts made, and the list of backoff
delays (in ms) that were waited between attempts. -/
structure RetryTrace (α : Type) where
  result : Except GemError α
  attempts : Nat
  delays : List Nat
  deriving Repr

/-- The retry loop of `retryGeminiCall`, with the remote operation
abstracted as a function from the attempt number to that attempt's
outcome.  `remaining = maxRetries - attempt` counts the retries still
allowed, so the JS guard `attempt < maxRetries` is `remaining > 0`.  On
a rate-limited failure with budget left the loop waits
`baseDelay * 2 ^ attempt` and retries; any other failure (or an
exhausted budget) propagates the error. -/
def retryGo {α : Type} (op : Nat → Except GemError α) (baseDelay : Nat) :
    Nat → Nat → RetryTrace α
  | remaining, attempt =>
    match op attempt, remaining with
    | Except.ok a, _ => { result := Except.ok a, attempts := 1, delays := [] }
    | Except.error e, 0 =>
        { result := Except.error e, attempts := 1, delays := [] }
    | Except.error e, r + 1 =>
        if isRateLimitError e then
          let rest := retryGo op baseDelay r (attempt + 1)
          { result := rest.result
            attempts := rest.attempts + 1
            delays := baseDelay * 2 ^ attempt :: rest.delays }
        else { result := Except.error e, attempts := 1, delays := [] }

/-- `retryGeminiCall(operation, maxRetries = 4, baseDelay = 2500)`:
run the loop starting at attempt 0 with the full retry budget. -/
def retryGeminiCall {α : Type} (op : Nat → Except GemError α)
    (maxRetries : Nat) (baseDelay : Nat) : RetryTrace α :=
  retryGo op baseDelay maxRetries 0

/-! ## Routing (`calculateRoute` in routingService.ts) -/

/-- Failure taxonomy of `calculateRoute`: fewer than two waypoints, a
non-OK transport response, or an OSRM reply without a viable route. -/
inductive RouteError
  | invalidInput
  | serviceError
  | noRouteFound
  deriving DecidableEq, Repr

/-- One routing step (`step.name` is all the code reads). -/
structure OsrmStep where
  name : String
  deriving DecidableEq, Repr

/-- One routing leg: its list of steps. -/
structure OsrmLeg where
  steps : List OsrmStep
  deriving DecidableEq, Repr

/-- One OSRM route object: GeoJSON coordinates come as (lng, lat)
pairs.  -/
structure OsrmRouteObj where
  geometryCoordinates : List (ℚ × ℚ)
  legs : List OsrmLeg
  duration : ℚ
  distance : ℚ
  deriving DecidableEq, Repr

/-- The OSRM reply as inspected by the code: HTTP `response.ok`, the
OSRM status `code` string, and the route list. -/
structure OsrmResponse where
  ok : Bool
  code : String
  routes : List OsrmRouteObj
  deriving DecidableEq, Repr

/-- The `RouteResult` the routing service returns on success
(geometry object omitted; `coordinates` are already swapped to
(lat, lng)). -/
structure RouteResult where
  coordinates : List (ℚ × ℚ)
  streetNames : List String
  duration : ℚ
  distance : ℚ
  deriving DecidableEq, Repr

/-- Insertion into a JS `Set` materialised as an insertion-ordered
duplicate-free list. -/
def addUnique (acc : List String) (s : String) : List String :=
  if s ∈ acc then acc else acc ++ [s]

/-- `streetNames` extraction: walk every leg and step in order, adding
each nonempty `step.name` to the set (first occurrence wins). -/
def extractStreetNames (legs : List OsrmLeg) : List String :=
  legs.foldl
    (fun acc leg =>
      leg.steps.foldl
        (fun acc2 st => if st.name = "" then acc2 else addUnique acc2 st.name)
        acc)
    []

/-- `calculateRoute(points)` with the OSRM backend abstracted as a
function from the waypoint list to its reply.  The second component of
the result records whether a routing request was issued at all.
Failures are the thrown errors of the TS code: fewer than two points
throws before any fetch; a non-ok HTTP response throws the transport
error; `code !== "Ok"` or an empty route list throws `No route found`. -/
def calculateRoute (backend : List Coordinates → OsrmResponse)
    (points : List Coordinates) : Except RouteError RouteResult × Bool :=
  if points.length < 2 then (Except.error RouteError.invalidInput, false)
  else
    let resp := backend points
    if resp.ok = false then (Except.error RouteError.serviceError, true)
    else if resp.code ≠ "Ok" ∨ resp.routes.length = 0 then
      (Except.error RouteError.noRouteFound, true)
    else
      match resp.routes with
      | [] => (Except.error RouteError.noRouteFound, true)
      | route :: _ =>
          (Except.ok
            { coordinates := route.geometryCoordinates.map (fun c => (c.2, c.1))
              streetNames := extractStreetNames route.legs
              duration := route.duration
              distance := route.distance }, true)

/-! ## Session state (App.tsx) -/

/-- The two UI modes. -/
inductive Mode
  | explore
  | route
  deriving DecidableEq, Repr

/-- The `useState` hooks of `App.tsx` gathered into one state record. -/
structure AppState where
  selectedVehicle : VehicleType
  mode : Mode
  analysis : Option StreetAnalysis
  highlightedSegments : List (List Coordinates)
  isHighlightSuitable : Bool
  routePoints : List Coordinates
  routeCoordinates : List (ℚ × ℚ)
  routeAnalysis : Option RouteAnalysis
  routeStreetNames : List String
  loading : Bool
  liveTraffic : Option LiveTrafficData
  weather : Option WeatherData
  markers : List MapMarkerData
  error : Option String
  deriving DecidableEq, Repr

/-- The route-mode branch of `handleLocationSelect`: `setError(null)`
runs first; with 10 or more accumulated waypoints the click is rejected
with a user-visible message and nothing else changes; otherwise the
coordinate is appended and a numbered stop marker is added.  `now`
stands for `Date.now()`. -/
def handleLocationSelectRoute (s : AppState) (coords : Coordinates)
    (now : Nat) : AppState :=
  let s0 := { s with error := none }
  if 10 ≤ s0.routePoints.length then
    { s0 with error := some "Max 10 waypoints allowed." }
  else
    let updatedPoints := s0.routePoints ++ [coords]
    { s0 with
      routePoints := updatedPoints
      markers := s0.markers ++
        [{ id := "route-" ++ toString now
           position := coords
           name := "Stop " ++ toString updatedPoints.length
           type := MarkerType.routePoint
           index := some updatedPoints.length }] }

/-- `handleModeSwitch(newMode)`: always set the mode, clear the error
banner and the highlighted segments; switching to explore additionally
clears the waypoints, the route polyline and the markers; switching to
route additionally clears the street analysis, the live traffic and the
markers. -/
def handleModeSwitch (s : AppState) (newMode : Mode) : AppState :=
  let s0 := { s with mode := newMode, error := none, highlightedSegments := [] }
  match newMode with
  | Mode.explore =>
      { s0 with routePoints := [], routeCoordinates := [], markers := [] }
  | Mode.route =>
      { s0 with analysis := none, liveTraffic := none, markers := [] }

/-! ## Route animator (`AnimatedRouteMarker` in the map component)

The polyline vertex type is a (lat, lng) pair of rationals.  The
great-circle distance `getDistance` and the initial bearing
`getBearing` are trigonometric float helpers; the animator theorems are
about which segment is selected, how position is interpolated and which
endpoints feed the bearing, so both helpers are abstracted as function
parameters `d` and `bear`.  The hypotheses used about `d` — it is
nonnegative, and it vanishes only between equal points — hold for the
haversine formula on coordinates in the normal ranges. -/

/-- A polyline vertex, `[lat, lng]`. -/
abbrev Pt := ℚ × ℚ

/-- Cumulative distance at vertex `k`: the functional view of the
`dists` array precomputed by `AnimatedRouteMarker` (`dists[0] = 0`,
`dists[k+1] = dists[k] + d(route[k], route[k+1])`).  Out-of-range
indices read the default vertex, as the theorems never use them. -/
def cumAt (d : Pt → Pt → ℚ) (route : List Pt) : Nat → ℚ
  | 0 => 0
  | k + 1 => cumAt d route k + d (route.getD k (0, 0)) (route.getD (k + 1) (0, 0))

/-- Total path length, `segments.totalDist = dists[route.length - 1]`. -/
def totalDist (d : Pt → Pt → ℚ) (route : List Pt) : ℚ :=
  cumAt d route (route.length - 1)

/-- The fixed animation cycle duration (`DURATION = 10000` ms). -/
def cycleDuration : ℚ := 10000

/-- JavaScript `x % y` for nonnegative `x` and positive `y` (the code
always has `elapsed >= 0`): the floor-based remainder. -/
def jsMod (x y : ℚ) : ℚ := x - y * (⌊x / y⌋ : ℤ)

/-- `progress = (elapsed % DURATION) / DURATION`, the looping fraction
in `[0, 1)`. -/
def animProgress (elapsed : ℚ) : ℚ := jsMod elapsed cycleDuration / cycleDuration

/-- The bounding-segment search of the per-frame callback: the first
index `i` with `dists[i] <= currentDist && currentDist < dists[i+1]`,
defaulting to 0 when no index matches (the loop variable keeps its
initial value). -/
def findSegIdx (d : Pt → Pt → ℚ) (route : List Pt) (c : ℚ) : Nat :=
  ((List.range (route.length - 1)).find?
    (fun i => decide (cumAt d route i ≤ c ∧ c < cumAt d route (i + 1)))).getD 0

/-- One frame of the animation: the selected segment index, the
interpolated marker position, and the heading passed to the rotated
icon. -/
structure AnimSample where
  index : Nat
  pos : Pt
  heading : ℚ
  deriving DecidableEq, Repr

/-- One evaluation of the `animate` callback at a given elapsed time.
`none` models the frames in which no marker update happens: the effect
returns early when the route has fewer than two vertices or zero total
length (`!segments.totalDist`), and the update is skipped when `p1` or
`p2` is out of range.  Otherwise the marker is placed by linear
interpolation inside the segment found by `findSegIdx`, and the heading
is the bearing between that segment's endpoints. -/
def animateAt (d : Pt → Pt → ℚ) (bear : Pt → Pt → ℚ) (route : List Pt)
    (elapsed : ℚ) : Option AnimSample :=
  if route.length < 2 then none
  else
    let total := totalDist d route
    if total = 0 then none
    else
      let c := animProgress elapsed * total
      let i := findSegIdx d route c
      match route[i]?, route[i + 1]? with
      | some p1, some p2 =>
          let segLen := cumAt d route (i + 1) - cumAt d route i
          let segProgress := (c - cumAt d route i) / segLen
          some { index := i
                 pos := (p1.1 + (p2.1 - p1.1) * segProgress,
                         p1.2 + (p2.2 - p1.2) * segProgress)
                 heading := bear p1 p2 }
      | _, _ => none

/-! ## Concrete inputs used by the witness and counterexample theorems -/

/-- A rate-limited transport error (HTTP 429 status). -/
def err429 : GemError := { status := some 429, code := none, message := none }

/-- A non-rate-limited transport error (HTTP 500 status). -/
def err500 : GemError := { status := some 500, code := none, message := none }

/-- A generator payload whose 12-element congestion curve is out of the
documented [0,10] range. -/
def genOutOfRange : GenData :=
  { streetName := "Severinstrasse"
    isTruckSuitable := true
    restrictionReason := none
    maxWeight := none
    streetWidth := none
    congestionScore := 5
    congestionCurve := some (List.replicate 12 11)
    rushHourTimes := []
    description := "narrow"
    alternativeRoutes := [] }

/-- A generator payload that reports an empty-string street width. -/
def genEmptyWidth : GenData :=
  { streetName := "Hohe Strasse"
    isTruckSuitable := false
    restrictionReason := some "pedestrian zone"
    maxWeight := none
    streetWidth := some ""
    congestionScore := 7
    congestionCurve := some [1, 1, 2, 6, 9, 7, 5, 8, 9, 6, 3, 2]
    rushHourTimes := []
    description := "busy"
    alternativeRoutes := [] }

/-- A verified street context with a width tag of 4 meters. -/
def osmExample : OsmStreetDetails :=
  { name := "Hohe Strasse"
    type := "pedestrian"
    width := some "4"
    lanes := some "2"
    maxspeed := none
    surface := none }

/-- An operation that is rate limited on attempts 0 and 1 and succeeds
on attempt 2. -/
def opTwoRateLimits : Nat → Except GemError Nat :=
  fun i => if i < 2 then Except.error err429 else Except.ok 7

/-- A routing backend that always reports no viable route. -/
def backendNoRoute : List Coordinates → OsrmResponse :=
  fun _ => { ok := true, code := "NoRoute", routes := [] }

/-- Two concrete waypoints in Cologne. -/
def waypointA : Coordinates := { lat := 50936/1000, lng := 6962/1000 }

/-- Second concrete waypoint. -/
def waypointB : Coordinates := { lat := 50938/1000, lng := 6957/1000 }

/-- A concrete route analysis value. -/
def raExample : RouteAnalysis :=
  { suitabilityScore := 80
    isRouteSuitable := true
    majorWarnings := []
    trafficPrediction := "light"
    problematicStreets := []
    estimatedDurationAdjustment := "+5 mins" }

/-- A session state that has just computed a route in route mode. -/
def stateWithRoute : AppState :=
  { selectedVehicle := VehicleType.lkwHeavy
    mode := Mode.route
    analysis := none
    highlightedSegments := []
    isHighlightSuitable := true
    routePoints := [waypointA, waypointB]
    routeCoordinates := [(50936/1000, 6962/1000), (50938/1000, 6957/1000)]
    routeAnalysis := some raExample
    routeStreetNames := ["Hohe Strasse", "Heumarkt"]
    loading := false
    liveTraffic := none
    weather := none
    markers := []
    error := none }

/-- A ten-waypoint session state at the cap. -/
def stateAtCap : AppState :=
  { stateWithRoute with routePoints := List.replicate 10 waypointA }

/-- Taxicab distance on rational pairs: a computable stand-in for the
great-circle distance in witness instantiations (nonnegative and
definite, the two properties the animator theorems assume of `d`). -/
def taxiDist (a b : Pt) : ℚ := |b.1 - a.1| + |b.2 - a.2|

/-- A constant bearing function for witness instantiations. -/
def bearZero (_ _ : Pt) : ℚ := 0

/-- A three-vertex straight polyline with unit-length segments. -/
def routeExample : List Pt := [(0, 0), (1, 0), (2, 0)]

/-! ## Theorems -/

/-- C4: the merge step of the street analysis never changes the
generator's suitability verdict.  The merge is independent of the
vehicle class and of the verified width (both only shape the prompt),
so the equality holds for every generated payload and every verified
context, including a sub-3.5m width with the heaviest vehicle class. -/
theorem merge_preserves_suitability (data : GenData)
    (osmData : Option OsmStreetDetails) (ts : String) :
    (analyzeStreetConditions (Except.ok data) osmData ts).isTruckSuitable =
      data.isTruckSuitable := rfl

/-- C2: a rate-limited failure of the street analysis yields the
degraded result (optimistic suitability, flat 2/5 curve); any other
failure yields the failed result (pessimistic suitability, all-zero
curve); the two fallbacks are distinguishable.  `analyzeStreetConditions`
is a total function into `StreetAnalysis`, which embeds the no-throw
guarantee. -/
theorem analyzeStreet_failure_spec (e : GemError)
    (osmData : Option OsmStreetDetails) (ts : String) :
    (isRateLimitError e = true →
      analyzeStreetConditions (Except.error e) osmData ts =
          degradedFallback osmData ts ∧
      (analyzeStreetConditions (Except.error e) osmData ts).isTruckSuitable =
          true ∧
      (analyzeStreetConditions (Except.error e) osmData ts).congestionCurve =
          [2, 2, 2, 5, 5, 5, 5, 5, 5, 5, 2, 2]) ∧
    (isRateLimitError e = false →
      analyzeStreetConditions (Except.error e) osmData ts =
          failedFallback osmData ts ∧
      (analyzeStreetConditions (Except.error e) osmData ts).isTruckSuitable =
          false ∧
      (analyzeStreetConditions (Except.error e) osmData ts).congestionCurve =
          [0, 0, 0, 0, 0, 0, 0, 0, 0, 0, 0, 0]) ∧
    degradedFallback osmData ts ≠ failedFallback osmData ts := by
  refine ⟨fun h => ?_, fun h => ?_, fun h => ?_⟩
  · have hr : analyzeStreetConditions (Except.error e) osmData ts =
        degradedFallback osmData ts := by
      simp [analyzeStreetConditions, h]
    exact ⟨hr, by rw [hr]; rfl, by rw [hr]; rfl⟩
  · have hr : analyzeStreetConditions (Except.error e) osmData ts =
        failedFallback osmData ts := by
      simp [analyzeStreetConditions, h]
    exact ⟨hr, by rw [hr]; rfl, by rw [hr]; rfl⟩
  · have h2 := congrArg StreetAnalysis.isTruckSuitable h
    simp [degradedFallback, failedFallback] at h2

/-- Witness for C2 at a concrete 429 error and a concrete 500 error. -/
theorem analyzeStreet_failure_spec_witness :
    (analyzeStreetConditions (Except.error err429) none "t").isTruckSuitable =
        true ∧
    (analyzeStreetConditions (Except.error err500) none "t").isTruckSuitable =
        false :=
  ⟨((analyzeStreet_failure_spec err429 none "t").1 (by decide)).2.1,
   ((analyzeStreet_failure_spec err500 none "t").2.1 (by decide)).2.1⟩

/-- C1 counterexample: a successful generator response whose 12-element
curve has entries above 10 is passed through by the merge unchanged, so
an `analyzeStreetConditions` result can violate the claimed [0,10]
element bound. -/
theorem congestionCurve_range_counterexample :
    ¬ (∀ x ∈ (analyzeStreetConditions (Except.ok genOutOfRange) none
        "t").congestionCurve, 0 ≤ x ∧ x ≤ 10) := by decide

/-- C1 (amended): every result of `analyzeStreetConditions` has a
congestion curve of exactly 12 entries; the entries lie in [0,10] on
both fallback paths and whenever the fixed default replaces a missing
or wrong-length generated curve; a generated 12-element curve is passed
through without range validation. -/
theorem congestionCurve_invariant (outcome : Except GemError GenData)
    (osmData : Option OsmStreetDetails) (ts : String) :
    (analyzeStreetConditions outcome osmData ts).congestionCurve.length = 12 ∧
    (∀ e, outcome = Except.error e →
      ∀ x ∈ (analyzeStreetConditions outcome osmData ts).congestionCurve,
        0 ≤ x ∧ x ≤ 10) ∧
    (∀ data, outcome = Except.ok data →
      ((∀ l, data.congestionCurve = some l → l.length ≠ 12) →
        (analyzeStreetConditions outcome osmData ts).congestionCurve =
          defaultCurve ∧ ∀ x ∈ defaultCurve, 0 ≤ x ∧ x ≤ 10) ∧
      (∀ l, data.congestionCurve = some l → l.length = 12 →
        (analyzeStreetConditions outcome osmData ts).congestionCurve = l)) := by
  cases outcome with
  | ok data =>
      refine ⟨?_, ?_, ?_⟩
      · show (mergeAnalysis data osmData ts).congestionCurve.length = 12
        cases hc : data.congestionCurve with
        | none => simp [mergeAnalysis, hc, defaultCurve]
        | some l =>
            by_cases hl : l.length = 12
            · simp [mergeAnalysis, hc, hl]
            · simp [mergeAnalysis, hc, hl, defaultCurve]
      · intro e he; simp at he
      · intro g hg
        injection hg with hg2
        subst hg2
        constructor
        · intro hall
          refine ⟨?_, by decide⟩
          show (mergeAnalysis data osmData ts).congestionCurve = defaultCurve
          cases hc : data.congestionCurve with
          | none => simp [mergeAnalysis, hc]
          | some l => simp [mergeAnalysis, hc, hall l hc]
        · intro l hl h12
          show (mergeAnalysis data osmData ts).congestionCurve = l
          simp [mergeAnalysis, hl, h12]
  | error e =>
      refine ⟨?_, ?_, ?_⟩
      · by_cases h : isRateLimitError e <;>
          simp [analyzeStreetConditions, h, degradedFallback, failedFallback]
      · intro e2 he2
        by_cases h : isRateLimitError e <;>
          simp [analyzeStreetConditions, h, degradedFallback, failedFallback]
      · intro g hg; simp at hg

/-- Witness for C1: the degraded fallback curve has 12 in-range
entries, and a concrete length-12 generated curve is passed through. -/
theorem congestionCurve_invariant_witness :
    (analyzeStreetConditions (Except.error err429) none
        "t").congestionCurve.length = 12 ∧
    (analyzeStreetConditions (Except.ok genOutOfRange) none
        "t").congestionCurve = List.replicate 12 11 :=
  ⟨(congestionCurve_invariant (Except.error err429) none "t").1,
   ((congestionCurve_invariant (Except.ok genOutOfRange) none "t").2.2
      genOutOfRange rfl).2 (List.replicate 12 11) rfl (by decide)⟩

/-- C5 counterexample: the merge uses JavaScript truthiness, so a
present-but-empty generated `streetWidth` is also replaced by the
verified width — the merged value is not the generated value. -/
theorem merge_streetWidth_counterexample :
    genEmptyWidth.streetWidth = some "" ∧
    (analyzeStreetConditions (Except.ok genEmptyWidth) (some osmExample)
        "t").streetWidth ≠ genEmptyWidth.streetWidth := by decide

/-- C5 (amended): with a verified context available, the merged
`streetWidth` is the generated value whenever it is a nonempty string
and falls back to the formatted verified width when the generator omits
it or returns an empty string; `lanes` is always the verified lane
count; the congestion curve is the generated array exactly when it has
length 12 and the fixed default otherwise. -/
theorem merge_fields_spec (data : GenData) (o : OsmStreetDetails)
    (ts : String) :
    ((data.streetWidth = none ∨ data.streetWidth = some "") →
      (analyzeStreetConditions (Except.ok data) (some o) ts).streetWidth =
        osmWidthLabel o.width) ∧
    (∀ s, data.streetWidth = some s → s ≠ "" →
      (analyzeStreetConditions (Except.ok data) (some o) ts).streetWidth =
        some s) ∧
    (analyzeStreetConditions (Except.ok data) (some o) ts).lanes = o.lanes ∧
    (∀ l, data.congestionCurve = some l → l.length = 12 →
      (analyzeStreetConditions (Except.ok data) (some o) ts).congestionCurve =
        l) ∧
    (∀ l, data.congestionCurve = some l → l.length ≠ 12 →
      (analyzeStreetConditions (Except.ok data) (some o) ts).congestionCurve =
        defaultCurve) ∧
    (data.congestionCurve = none →
      (analyzeStreetConditions (Except.ok data) (some o) ts).congestionCurve =
        defaultCurve) := by
  refine ⟨fun h => ?_, fun s hs hne => ?_, ?_, fun l hl h12 => ?_,
    fun l hl h12 => ?_, fun h => ?_⟩
  · rcases h with h | h <;>
      simp [analyzeStreetConditions, mergeAnalysis, jsOrStr, h]
  · simp [analyzeStreetConditions, mergeAnalysis, jsOrStr, hs, hne]
  · simp [analyzeStreetConditions, mergeAnalysis]
  · simp [analyzeStreetConditions, mergeAnalysis, hl, h12]
  · simp [analyzeStreetConditions, mergeAnalysis, hl, h12]
  · simp [analyzeStreetConditions, mergeAnalysis, h]

/-- Witness for C5: the empty generated width falls back to the
formatted verified width, and the verified lane count wins. -/
theorem merge_fields_spec_witness :
    (analyzeStreetConditions (Except.ok genEmptyWidth) (some osmExample)
        "t").streetWidth = some "4m" ∧
    (analyzeStreetConditions (Except.ok genEmptyWidth) (some osmExample)
        "t").lanes = some "2" :=
  ⟨((merge_fields_spec genEmptyWidth osmExample "t").1 (Or.inr rfl)).trans
      (by decide),
   ((merge_fields_spec genEmptyWidth osmExample "t").2.2.1).trans rfl⟩

/-- C6: `calculateRoute` fails with `InvalidInput` for fewer than two
waypoints, and the request flag shows no routing request was issued; an
OSRM reply whose status code is not `Ok` or whose route list is empty
fails with `NoRouteFound`; an error result is never a route plan. -/
theorem calculateRoute_failure_spec
    (backend : List Coordinates → OsrmResponse) (points : List Coordinates) :
    (points.length < 2 →
      calculateRoute backend points =
        (Except.error RouteError.invalidInput, false)) ∧
    (2 ≤ points.length → (backend points).ok = true →
      ((backend points).code ≠ "Ok" ∨ (backend points).routes.length = 0) →
      calculateRoute backend points =
        (Except.error RouteError.noRouteFound, true)) ∧
    (∀ err, (calculateRoute backend points).1 = Except.error err →
      ∀ plan, (calculateRoute backend points).1 ≠ Except.ok plan) := by
  refine ⟨fun h => ?_, fun h1 h2 h3 => ?_, fun err he plan hcontra => ?_⟩
  · simp [calculateRoute, h]
  · have hlt : ¬ points.length < 2 := by omega
    simp only [calculateRoute, hlt, if_false]
    rw [if_neg (by simp [h2]), if_pos h3]
  · rw [he] at hcontra
    exact Except.noConfusion hcontra

/-- Witness for C6: an empty waypoint list is rejected without a
request, and a backend reporting no route yields `NoRouteFound`. -/
theorem calculateRoute_failure_spec_witness :
    calculateRoute backendNoRoute [] =
      (Except.error RouteError.invalidInput, false) ∧
    calculateRoute backendNoRoute [waypointA, waypointB] =
      (Except.error RouteError.noRouteFound, true) :=
  ⟨(calculateRoute_failure_spec backendNoRoute []).1 (by decide),
   (calculateRoute_failure_spec backendNoRoute [waypointA, waypointB]).2.1
      (by decide) rfl (Or.inr rfl)⟩

/-- C7: in route mode, a click with ten accumulated waypoints only sets
the user-visible rejection message — waypoints, markers and every other
state field are unchanged; with fewer than ten, exactly the new
coordinate is appended, a numbered stop marker is added, and no error is
raised. -/
theorem handleLocationSelectRoute_spec (s : AppState) (coords : Coordinates)
    (now : Nat) :
    (10 ≤ s.routePoints.length →
      handleLocationSelectRoute s coords now =
        { s with error := some "Max 10 waypoints allowed." }) ∧
    (s.routePoints.length < 10 →
      (handleLocationSelectRoute s coords now).routePoints =
        s.routePoints ++ [coords] ∧
      (handleLocationSelectRoute s coords now).markers =
        s.markers ++
          [{ id := "route-" ++ toString now
             position := coords
             name := "Stop " ++ toString (s.routePoints.length + 1)
             type := MarkerType.routePoint
             index := some (s.routePoints.length + 1) }] ∧
      (handleLocationSelectRoute s coords now).error = none) := by
  refine ⟨fun h => ?_, fun h => ?_⟩
  · simp [handleLocationSelectRoute, h]
  · have hge : ¬ 10 ≤ s.routePoints.length := by omega
    refine ⟨?_, ?_, ?_⟩ <;> simp [handleLocationSelectRoute, hge]

/-- Witness for C7: at the ten-waypoint cap the set is unchanged; below
the cap the coordinate is appended. -/
theorem handleLocationSelectRoute_spec_witness :
    (handleLocationSelectRoute stateAtCap waypointB 5).routePoints =
      stateAtCap.routePoints ∧
    (handleLocationSelectRoute stateWithRoute waypointB 5).routePoints =
      stateWithRoute.routePoints ++ [waypointB] :=
  ⟨by rw [(handleLocationSelectRoute_spec stateAtCap waypointB 5).1 (by decide)],
   ((handleLocationSelectRoute_spec stateWithRoute waypointB 5).2
      (by decide)).1⟩

/-- C8 counterexample: switching from route mode to explore mode leaves
the route street names and the route analysis of the previous route in
place, so the claimed clearing of all route-mode state fails. -/
theorem handleModeSwitch_counterexample :
    ¬ ((handleModeSwitch stateWithRoute Mode.explore).routeStreetNames = [] ∧
       (handleModeSwitch stateWithRoute Mode.explore).routeAnalysis = none) := by
  decide

/-- C8 (amended): every mode switch resets the error banner, the
highlighted segments and the markers; switching to explore clears the
accumulated waypoints and the route polyline but leaves the route street
names and the route analysis unchanged; switching to route clears the
street analysis and the live traffic while leaving all route-mode fields
unchanged. -/
theorem handleModeSwitch_spec (s : AppState) (m : Mode) :
    (handleModeSwitch s m).mode = m ∧
    (handleModeSwitch s m).error = none ∧
    (handleModeSwitch s m).highlightedSegments = [] ∧
    (handleModeSwitch s m).markers = [] ∧
    (m = Mode.explore →
      (handleModeSwitch s m).routePoints = [] ∧
      (handleModeSwitch s m).routeCoordinates = [] ∧
      (handleModeSwitch s m).analysis = s.analysis ∧
      (handleModeSwitch s m).liveTraffic = s.liveTraffic ∧
      (handleModeSwitch s m).routeStreetNames = s.routeStreetNames ∧
      (handleModeSwitch s m).routeAnalysis = s.routeAnalysis) ∧
    (m = Mode.route →
      (handleModeSwitch s m).analysis = none ∧
      (handleModeSwitch s m).liveTraffic = none ∧
      (handleModeSwitch s m).routePoints = s.routePoints ∧
      (handleModeSwitch s m).routeCoordinates = s.routeCoordinates ∧
      (handleModeSwitch s m).routeStreetNames = s.routeStreetNames ∧
      (handleModeSwitch s m).routeAnalysis = s.routeAnalysis) := by
  cases m <;> simp [handleModeSwitch]

/-- Witness for C8: switching the concrete route-mode state to explore
clears the waypoints but keeps the route street names. -/
theorem handleModeSwitch_spec_witness :
    (handleModeSwitch stateWithRoute Mode.explore).routePoints = [] ∧
    (handleModeSwitch stateWithRoute Mode.explore).routeStreetNames =
      ["Hohe Strasse", "Heumarkt"] :=
  ⟨((handleModeSwitch_spec stateWithRoute Mode.explore).2.2.2.2.1 rfl).1,
   (((handleModeSwitch_spec stateWithRoute Mode.explore).2.2.2.2.1
      rfl).2.2.2.2.1).trans rfl⟩

/-- Full execution invariant of the retry loop, proved by induction on
the remaining budget with the starting attempt generalised: at least one
and at most `remaining + 1` attempts happen; the waited delays are the
exponential backoff sequence for the attempts actually retried; every
non-final attempt failed rate-limited; the propagated result is the
outcome of the final attempt; a rate-limited failure at a reached
attempt with budget left is always followed by a further attempt; and a
propagated rate-limited error means the whole budget was consumed. -/
theorem retryGo_invariant {α : Type} (op : Nat → Except GemError α)
    (baseDelay : Nat) :
    ∀ remaining attempt,
      1 ≤ (retryGo op baseDelay remaining attempt).attempts ∧
      (retryGo op baseDelay remaining attempt).attempts ≤ remaining + 1 ∧
      (retryGo op baseDelay remaining attempt).delays =
        (List.range ((retryGo op baseDelay remaining attempt).attempts - 1)).map
          (fun j => baseDelay * 2 ^ (attempt + j)) ∧
      (∀ i, i + 1 < (retryGo op baseDelay remaining attempt).attempts →
        ∃ e, op (attempt + i) = Except.error e ∧ isRateLimitError e = true) ∧
      (∀ e, (retryGo op baseDelay remaining attempt).result = Except.error e →
        op (attempt + ((retryGo op baseDelay remaining attempt).attempts - 1)) =
          Except.error e) ∧
      (∀ a, (retryGo op baseDelay remaining attempt).result = Except.ok a →
        op (attempt + ((retryGo op baseDelay remaining attempt).attempts - 1)) =
          Except.ok a) ∧
      (∀ i e, i < (retryGo op baseDelay remaining attempt).attempts →
        op (attempt + i) = Except.error e → isRateLimitError e = true →
        i < remaining →
        i + 1 < (retryGo op baseDelay remaining attempt).attempts) ∧
      (∀ e, (retryGo op baseDelay remaining attempt).result = Except.error e →
        isRateLimitError e = true →
        (retryGo op baseDelay remaining attempt).attempts = remaining + 1) := by
  intro remaining
  induction remaining with
  | zero =>
      intro attempt
      cases h : op attempt with
      | ok a =>
          have hun : retryGo op baseDelay 0 attempt =
              { result := Except.ok a, attempts := 1, delays := [] } := by
            simp [retryGo, h]
          rw [hun]
          refine ⟨le_refl 1, by show (1 : Nat) ≤ 0 + 1; omega, by simp,
            ?_, ?_, ?_, ?_, ?_⟩
          · intro i hi
            exact absurd (show i + 1 < 1 from hi) (by omega)
          · intro e2 he2
            exact absurd (show Except.ok a = Except.error e2 from he2) (by simp)
          · intro a2 ha2
            have hx : Except.ok (α := α) a = Except.ok a2 := ha2
            injection hx with hxa
            subst hxa
            show op (attempt + 0) = Except.ok a
            simpa using h
          · intro i e2 hi hop hrle hir
            exact absurd hir (by omega)
          · intro e2 he2 hrle
            rfl
      | error e =>
          have hun : retryGo op baseDelay 0 attempt =
              { result := Except.error e, attempts := 1, delays := [] } := by
            simp [retryGo, h]
          rw [hun]
          refine ⟨le_refl 1, by show (1 : Nat) ≤ 0 + 1; omega, by simp,
            ?_, ?_, ?_, ?_, ?_⟩
          · intro i hi
            exact absurd (show i + 1 < 1 from hi) (by omega)
          · intro e2 he2
            have hx : Except.error (α := α) e = Except.error e2 := he2
            injection hx with hxe
            subst hxe
            show op (attempt + 0) = Except.error e
            simpa using h
          · intro a2 ha2
            exact absurd (show Except.error e = Except.ok a2 from ha2) (by simp)
          · intro i e2 hi hop hrle hir
            exact absurd hir (by omega)
          · intro e2 he2 hrle
            rfl
  | succ r ih =>
      intro attempt
      cases h : op attempt with
      | ok a =>
          have hun : retryGo op baseDelay (r + 1) attempt =
              { result := Except.ok a, attempts := 1, delays := [] } := by
            simp [retryGo, h]
          rw [hun]
          refine ⟨le_refl 1, by show (1 : Nat) ≤ r + 1 + 1; omega, by simp,
            ?_, ?_, ?_, ?_, ?_⟩
          · intro i hi
            exact absurd (show i + 1 < 1 from hi) (by omega)
          · intro e2 he2
            exact absurd (show Except.ok a = Except.error e2 from he2) (by simp)
          · intro a2 ha2
            have hx : Except.ok (α := α) a = Except.ok a2 := ha2
            injection hx with hxa
            subst hxa
            show op (attempt + 0) = Except.ok a
            simpa using h
          · intro i e2 hi hop hrle hir
            have hi0 : i = 0 := by
              have := show i < 1 from hi
              omega
            subst hi0
            rw [Nat.add_zero, h] at hop
            exact absurd hop (by simp)
          · intro e2 he2 hrle
            exact absurd (show Except.ok a = Except.error e2 from he2) (by simp)
      | error e =>
          cases hrl : isRateLimitError e with
          | false =>
              have hun : retryGo op baseDelay (r + 1) attempt =
                  { result := Except.error e, attempts := 1, delays := [] } := by
                simp [retryGo, h, hrl]
              rw [hun]
              refine ⟨le_refl 1, by show (1 : Nat) ≤ r + 1 + 1; omega, by simp,
                ?_, ?_, ?_, ?_, ?_⟩
              · intro i hi
                exact absurd (show i + 1 < 1 from hi) (by omega)
              · intro e2 he2
                have hx : Except.error (α := α) e = Except.error e2 := he2
                injection hx with hxe
                subst hxe
                show op (attempt + 0) = Except.error e
                simpa using h
              · intro a2 ha2
                exact absurd (show Except.error e = Except.ok a2 from ha2)
                  (by simp)
              · intro i e2 hi hop hrle hir
                have hi0 : i = 0 := by
                  have := show i < 1 from hi
                  omega
                subst hi0
                rw [Nat.add_zero, h] at hop
                have hx : Except.error (α := α) e = Except.error e2 := hop
                injection hx with hxe
                subst hxe
                rw [hrl] at hrle
                simp at hrle
              · intro e2 he2 hrle
                have hx : Except.error (α := α) e = Except.error e2 := he2
                injection hx with hxe
                subst hxe
                rw [hrl] at hrle
                simp at hrle
          | true =>
              have hun : retryGo op baseDelay (r + 1) attempt =
                  { result := (retryGo op baseDelay r (attempt + 1)).result
                    attempts := (retryGo op baseDelay r (attempt + 1)).attempts + 1
                    delays := baseDelay * 2 ^ attempt ::
                      (retryGo op baseDelay r (attempt + 1)).delays } := by
                simp [retryGo, h, hrl]
              obtain ⟨ih1, ih2, ih3, ih4, ih5, ih6, ihA, ihB⟩ := ih (attempt + 1)
              rw [hun]
              refine ⟨by simp, by simpa using ih2, ?_, ?_, ?_, ?_, ?_, ?_⟩
              · simp only [Nat.add_sub_cancel]
                obtain ⟨k, hk⟩ : ∃ k,
                    (retryGo op baseDelay r (attempt + 1)).attempts = k + 1 :=
                  ⟨(retryGo op baseDelay r (attempt + 1)).attempts - 1, by omega⟩
                rw [hk] at ih3 ⊢
                simp only [Nat.add_sub_cancel] at ih3
                rw [ih3, List.range_succ_eq_map, List.map_cons, List.map_map]
                congr 1
                refine List.map_congr_left (fun j hj => ?_)
                have harith : attempt + 1 + j = attempt + (j + 1) := by omega
                simp [Function.comp, harith]
              · intro i hi
                have hi2 : i + 1 <
                    (retryGo op baseDelay r (attempt + 1)).attempts + 1 := by
                  simpa using hi
                cases i with
                | zero =>
                    refine ⟨e, ?_, hrl⟩
                    simpa using h
                | succ i2 =>
                    obtain ⟨e2, he2, hrl2⟩ := ih4 i2 (by omega)
                    refine ⟨e2, ?_, hrl2⟩
                    have harith : attempt + (i2 + 1) = attempt + 1 + i2 := by
                      omega
                    rw [harith]
                    exact he2
              · intro e2 he2
                have he3 : (retryGo op baseDelay r (attempt + 1)).result =
                    Except.error e2 := by simpa using he2
                have hres := ih5 e2 he3
                show op (attempt +
                  ((retryGo op baseDelay r (attempt + 1)).attempts + 1 - 1)) =
                  Except.error e2
                have harith : attempt +
                    ((retryGo op baseDelay r (attempt + 1)).attempts + 1 - 1) =
                    attempt + 1 +
                    ((retryGo op baseDelay r (attempt + 1)).attempts - 1) := by
                  omega
                rw [harith]
                exact hres
              · intro a ha
                have ha3 : (retryGo op baseDelay r (attempt + 1)).result =
                    Except.ok a := by simpa using ha
                have hres := ih6 a ha3
                show op (attempt +
                  ((retryGo op baseDelay r (attempt + 1)).attempts + 1 - 1)) =
                  Except.ok a
                have harith : attempt +
                    ((retryGo op baseDelay r (attempt + 1)).attempts + 1 - 1) =
                    attempt + 1 +
                    ((retryGo op baseDelay r (attempt + 1)).attempts - 1) := by
                  omega
                rw [harith]
                exact hres
              · intro i e2 hi hop hrle hir
                cases i with
                | zero =>
                    show 0 + 1 <
                      (retryGo op baseDelay r (attempt + 1)).attempts + 1
                    omega
                | succ i2 =>
                    have hi2 : i2 + 1 <
                        (retryGo op baseDelay r (attempt + 1)).attempts + 1 :=
                      hi
                    have hop2 : op (attempt + 1 + i2) = Except.error e2 := by
                      have harith : attempt + 1 + i2 = attempt + (i2 + 1) := by
                        omega
                      rw [harith]
                      exact hop
                    have hir2 : i2 < r := by omega
                    have hnext := ihA i2 e2 (by omega) hop2 hrle hir2
                    show i2 + 1 + 1 <
                      (retryGo op baseDelay r (attempt + 1)).attempts + 1
                    omega
              · intro e2 he2 hrle
                have he3 : (retryGo op baseDelay r (attempt + 1)).result =
                    Except.error e2 := by simpa using he2
                have hfull := ihB e2 he3 hrle
                show (retryGo op baseDelay r (attempt + 1)).attempts + 1 =
                  r + 1 + 1
                omega

/-- C3: for a retry policy `(maxRetries, baseDelay)`, the wrapper makes
at most `maxRetries + 1` attempts; the delay waited after the
rate-limited failure of attempt `i` (0-indexed) is `baseDelay * 2 ^ i`;
every attempt that was followed by another one failed with a
rate-limited error (so any other failure propagates immediately); the
propagated result is the outcome of the final attempt; a rate-limited
failure at a reached attempt `i < maxRetries` is always followed by a
further attempt (and hence, by the delay-list equation, by the
`baseDelay * 2 ^ i` wait); and a propagated rate-limited error implies
the budget was exhausted — `maxRetries + 1` attempts were made, so the
propagated error is the last rate-limit failure. -/
theorem retryGeminiCall_spec {α : Type} (op : Nat → Except GemError α)
    (maxRetries baseDelay : Nat) :
    1 ≤ (retryGeminiCall op maxRetries baseDelay).attempts ∧
    (retryGeminiCall op maxRetries baseDelay).attempts ≤ maxRetries + 1 ∧
    (retryGeminiCall op maxRetries baseDelay).delays =
      (List.range ((retryGeminiCall op maxRetries baseDelay).attempts - 1)).map
        (fun j => baseDelay * 2 ^ j) ∧
    (∀ i, i + 1 < (retryGeminiCall op maxRetries baseDelay).attempts →
      ∃ e, op i = Except.error e ∧ isRateLimitError e = true) ∧
    (∀ e, (retryGeminiCall op maxRetries baseDelay).result = Except.error e →
      op ((retryGeminiCall op maxRetries baseDelay).attempts - 1) =
        Except.error e) ∧
    (∀ a, (retryGeminiCall op maxRetries baseDelay).result = Except.ok a →
      op ((retryGeminiCall op maxRetries baseDelay).attempts - 1) =
        Except.ok a) ∧
    (∀ i e, i < (retryGeminiCall op maxRetries baseDelay).attempts →
      op i = Except.error e → isRateLimitError e = true → i < maxRetries →
      i + 1 < (retryGeminiCall op maxRetries baseDelay).attempts) ∧
    (∀ e, (retryGeminiCall op maxRetries baseDelay).result = Except.error e →
      isRateLimitError e = true →
      (retryGeminiCall op maxRetries baseDelay).attempts = maxRetries + 1) := by
  have h := retryGo_invariant op baseDelay maxRetries 0
  simpa [retryGeminiCall] using h

/-- Witness for C3: an operation rate limited on its first two attempts
stays within the default budget of five attempts, its rate-limited first
attempt is followed by a further attempt, and the concrete backoff
delays are 2500 ms then 5000 ms. -/
theorem retryGeminiCall_spec_witness :
    (retryGeminiCall opTwoRateLimits 4 2500).attempts ≤ 4 + 1 ∧
    1 < (retryGeminiCall opTwoRateLimits 4 2500).attempts ∧
    (retryGeminiCall opTwoRateLimits 4 2500).delays = [2500, 5000] := by
  have h := retryGeminiCall_spec opTwoRateLimits 4 2500
  refine ⟨h.2.1, ?_, by decide⟩
  have h0 : opTwoRateLimits 0 = Except.error err429 := rfl
  have hnext := h.2.2.2.2.2.2.1 0 err429 h.1 h0 (by decide) (by decide)
  simpa using hnext

/-- The cumulative-distance array is monotone when the distance function
is nonnegative. -/
theorem cumAt_mono (d : Pt → Pt → ℚ) (route : List Pt)
    (hd : ∀ a b, 0 ≤ d a b) : Monotone (cumAt d route) :=
  monotone_nat_of_le_succ (fun _ => le_add_of_nonneg_right (hd _ _))

/-- Cumulative distances are nonnegative. -/
theorem cumAt_nonneg (d : Pt → Pt → ℚ) (route : List Pt)
    (hd : ∀ a b, 0 ≤ d a b) (k : Nat) : 0 ≤ cumAt d route k := by
  have h := cumAt_mono d route hd (Nat.zero_le k)
  simpa [cumAt] using h

/-- If the cumulative distance at vertex `i` is zero then all vertices
up to `i` coincide with the first vertex (using that `d` vanishes only
between equal points). -/
theorem cumAt_zero_points (d : Pt → Pt → ℚ) (route : List Pt)
    (hd : ∀ a b, 0 ≤ d a b) (hdz : ∀ a b, d a b = 0 → a = b) :
    ∀ i, i < route.length → cumAt d route i = 0 →
      route.getD i (0, 0) = route.getD 0 (0, 0) := by
  intro i
  induction i with
  | zero => intro _ _; rfl
  | succ i ihi =>
      intro hlen h0
      have hsum : cumAt d route i +
          d (route.getD i (0, 0)) (route.getD (i + 1) (0, 0)) = 0 := h0
      have hz := (add_eq_zero_iff_of_nonneg (cumAt_nonneg d route hd i)
        (hd _ _)).mp hsum
      have heq := hdz _ _ hz.2
      rw [← heq]
      exact ihi (by omega) hz.1

/-- `jsMod` is nonnegative for a positive modulus. -/
theorem jsMod_nonneg (x y : ℚ) (hy : 0 < y) : 0 ≤ jsMod x y := by
  unfold jsMod
  rw [sub_nonneg]
  calc y * (⌊x / y⌋ : ℤ) ≤ y * (x / y) :=
        mul_le_mul_of_nonneg_left (Int.floor_le _) hy.le
    _ = x := by field_simp

/-- `jsMod` is below a positive modulus. -/
theorem jsMod_lt (x y : ℚ) (hy : 0 < y) : jsMod x y < y := by
  unfold jsMod
  have h := Int.lt_floor_add_one (x / y)
  have h2 : x < y * ((⌊x / y⌋ : ℚ) + 1) := by
    calc x = y * (x / y) := by field_simp
      _ < y * ((⌊x / y⌋ : ℚ) + 1) := mul_lt_mul_of_pos_left h hy
  linarith

/-- `jsMod` is periodic in its modulus. -/
theorem jsMod_add_self (x y : ℚ) (hy : y ≠ 0) : jsMod (x + y) y = jsMod x y := by
  unfold jsMod
  rw [add_div, div_self hy, Int.floor_add_one]
  push_cast
  ring

/-- The looping fraction is nonnegative. -/
theorem animProgress_nonneg (elapsed : ℚ) : 0 ≤ animProgress elapsed := by
  unfold animProgress
  have h : (0 : ℚ) < cycleDuration := by norm_num [cycleDuration]
  exact div_nonneg (jsMod_nonneg _ _ h) h.le

/-- The looping fraction is below one. -/
theorem animProgress_lt_one (elapsed : ℚ) : animProgress elapsed < 1 := by
  unfold animProgress
  have h : (0 : ℚ) < cycleDuration := by norm_num [cycleDuration]
  exact (div_lt_one h).mpr (jsMod_lt _ _ h)

/-- The looping fraction repeats after one full cycle. -/
theorem animProgress_periodic (elapsed : ℚ) :
    animProgress (elapsed + cycleDuration) = animProgress elapsed := by
  unfold animProgress
  rw [jsMod_add_self _ _ (by norm_num [cycleDuration])]

/-- Any target distance in `[0, total)` lies in some half-open span
between consecutive cumulative distances below the last vertex. -/
theorem exists_bounding_seg (d : Pt → Pt → ℚ) (route : List Pt)
    (hd : ∀ a b, 0 ≤ d a b) (c : ℚ) (hc0 : 0 ≤ c)
    (hcT : c < cumAt d route (route.length - 1)) :
    ∃ i, i < route.length - 1 ∧ cumAt d route i ≤ c ∧
      c < cumAt d route (i + 1) := by
  have hmono := cumAt_mono d route hd
  have hnon : ∃ j, c < cumAt d route j := ⟨route.length - 1, hcT⟩
  have hj0 : c < cumAt d route (Nat.find hnon) := Nat.find_spec hnon
  have hj0pos : Nat.find hnon ≠ 0 := by
    intro h0
    rw [h0] at hj0
    exact absurd hj0 (not_lt.mpr (by simpa [cumAt] using hc0))
  have hprev : ¬ c < cumAt d route (Nat.find hnon - 1) :=
    Nat.find_min hnon (by omega)
  refine ⟨Nat.find hnon - 1, ?_, not_lt.mp hprev, ?_⟩
  · by_contra hge
    have h1 : route.length - 1 ≤ Nat.find hnon - 1 := by omega
    exact absurd hcT
      (not_lt.mpr (le_trans (hmono h1) (not_lt.mp hprev)))
  · rw [show Nat.find hnon - 1 + 1 = Nat.find hnon by omega]
    exact hj0

/-- One successful frame of the animator: under the guards that make the
effect run (two or more vertices, positive total length), the frame
callback produces a sample whose segment bounds the target distance,
whose position is the in-segment linear interpolation, and whose heading
is the bearing between the segment endpoints. -/
theorem animateAt_run (d bear : Pt → Pt → ℚ) (route : List Pt) (elapsed : ℚ)
    (hn : 2 ≤ route.length) (hd : ∀ a b, 0 ≤ d a b)
    (htot : 0 < totalDist d route) :
    ∃ i p1 p2,
      i + 1 < route.length ∧
      route[i]? = some p1 ∧ route[i + 1]? = some p2 ∧
      cumAt d route i ≤ animProgress elapsed * totalDist d route ∧
      animProgress elapsed * totalDist d route < cumAt d route (i + 1) ∧
      animateAt d bear route elapsed = some
        { index := i
          pos := (p1.1 + (p2.1 - p1.1) *
              ((animProgress elapsed * totalDist d route - cumAt d route i) /
                (cumAt d route (i + 1) - cumAt d route i)),
            p1.2 + (p2.2 - p1.2) *
              ((animProgress elapsed * totalDist d route - cumAt d route i) /
                (cumAt d route (i + 1) - cumAt d route i)))
          heading := bear p1 p2 } := by
  have hc0 : 0 ≤ animProgress elapsed * totalDist d route :=
    mul_nonneg (animProgress_nonneg elapsed) htot.le
  have hcT : animProgress elapsed * totalDist d route < totalDist d route := by
    calc animProgress elapsed * totalDist d route
        < 1 * totalDist d route :=
          mul_lt_mul_of_pos_right (animProgress_lt_one elapsed) htot
      _ = totalDist d route := one_mul _
  obtain ⟨i, hilt, hle, hlt⟩ := exists_bounding_seg d route hd
    (animProgress elapsed * totalDist d route) hc0 hcT
  have hPi : (fun i => decide
      (cumAt d route i ≤ animProgress elapsed * totalDist d route ∧
        animProgress elapsed * totalDist d route < cumAt d route (i + 1))) i
      = true := decide_eq_true ⟨hle, hlt⟩
  have hsome : (((List.range (route.length - 1)).find?
      (fun i => decide
        (cumAt d route i ≤ animProgress elapsed * totalDist d route ∧
          animProgress elapsed * totalDist d route <
            cumAt d route (i + 1))))).isSome :=
    List.find?_isSome.mpr ⟨i, List.mem_range.mpr hilt, hPi⟩
  obtain ⟨i0, hfind⟩ := Option.isSome_iff_exists.mp hsome
  have hP0 : cumAt d route i0 ≤ animProgress elapsed * totalDist d route ∧
      animProgress elapsed * totalDist d route < cumAt d route (i0 + 1) := by
    simpa using List.find?_some hfind
  have hmem0 := List.mem_range.mp (List.mem_of_find?_eq_some hfind)
  have hidx : findSegIdx d route (animProgress elapsed * totalDist d route)
      = i0 := by
    unfold findSegIdx
    rw [hfind]
    rfl
  have hi0len : i0 < route.length := by omega
  have hi1len : i0 + 1 < route.length := by omega
  have hp1 : route[i0]? = some (route.get ⟨i0, hi0len⟩) := by
    rw [List.getElem?_eq_getElem hi0len]
    rfl
  have hp2 : route[i0 + 1]? = some (route.get ⟨i0 + 1, hi1len⟩) := by
    rw [List.getElem?_eq_getElem hi1len]
    rfl
  have hn2 : ¬ route.length < 2 := by omega
  have htne : ¬ totalDist d route = 0 := ne_of_gt htot
  refine ⟨i0, route.get ⟨i0, hi0len⟩, route.get ⟨i0 + 1, hi1len⟩,
    hi1len, hp1, hp2, hP0.1, hP0.2, ?_⟩
  simp only [animateAt, hn2, if_false, htne, hidx, hp1, hp2]

/-- Taxicab distance is nonnegative. -/
theorem taxiDist_nonneg : ∀ a b : Pt, 0 ≤ taxiDist a b :=
  fun _ _ => add_nonneg (abs_nonneg _) (abs_nonneg _)

/-- Taxicab distance vanishes only between equal points. -/
theorem taxiDist_eq_zero : ∀ a b : Pt, taxiDist a b = 0 → a = b := by
  intro a b h
  unfold taxiDist at h
  have hz := (add_eq_zero_iff_of_nonneg (abs_nonneg _) (abs_nonneg _)).mp h
  have h1 : b.1 = a.1 := sub_eq_zero.mp (abs_eq_zero.mp hz.1)
  have h2 : b.2 = a.2 := sub_eq_zero.mp (abs_eq_zero.mp hz.2)
  exact Prod.ext h1.symm h2.symm

/-- C9: for a polyline with at least two vertices and positive total
length (`d` abstracts the great-circle distance: nonnegative, vanishing
only between equal points), each frame maps elapsed time modulo the
fixed cycle duration to a fraction in `[0, 1)` that repeats every
cycle; the produced sample interpolates linearly inside the segment
bounding the fractional distance, its heading is the bearing between
that segment's endpoints; at fraction 0 the position is exactly the
first vertex; and at a fraction matching a vertex's cumulative distance
the position is exactly that segment-start vertex while the heading is
the bearing of the (positive-length) segment that starts there. -/
theorem animatedRouteMarker_spec (d bear : Pt → Pt → ℚ) (route : List Pt)
    (elapsed : ℚ) (hn : 2 ≤ route.length) (hd : ∀ a b, 0 ≤ d a b)
    (hdz : ∀ a b, d a b = 0 → a = b) (htot : 0 < totalDist d route)
    (he : 0 ≤ elapsed) :
    0 ≤ animProgress elapsed ∧ animProgress elapsed < 1 ∧
    animProgress (elapsed + cycleDuration) = animProgress elapsed ∧
    ∃ s p1 p2,
      animateAt d bear route elapsed = some s ∧
      route[s.index]? = some p1 ∧ route[s.index + 1]? = some p2 ∧
      cumAt d route s.index ≤ animProgress elapsed * totalDist d route ∧
      animProgress elapsed * totalDist d route < cumAt d route (s.index + 1) ∧
      s.pos = (p1.1 + (p2.1 - p1.1) *
          ((animProgress elapsed * totalDist d route - cumAt d route s.index) /
            (cumAt d route (s.index + 1) - cumAt d route s.index)),
        p1.2 + (p2.2 - p1.2) *
          ((animProgress elapsed * totalDist d route - cumAt d route s.index) /
            (cumAt d route (s.index + 1) - cumAt d route s.index))) ∧
      s.heading = bear p1 p2 ∧
      (animProgress elapsed = 0 → route[0]? = some s.pos) ∧
      (∀ k, k < route.length →
        animProgress elapsed * totalDist d route = cumAt d route k →
        cumAt d route s.index = animProgress elapsed * totalDist d route ∧
        s.pos = p1 ∧
        cumAt d route s.index < cumAt d route (s.index + 1)) := by
  obtain ⟨i, p1, p2, hi1, hp1, hp2, hle, hlt, heq⟩ :=
    animateAt_run d bear route elapsed hn hd htot
  have hmono := cumAt_mono d route hd
  refine ⟨animProgress_nonneg _, animProgress_lt_one _,
    animProgress_periodic _, ?_⟩
  refine ⟨_, p1, p2, heq, hp1, hp2, hle, hlt, rfl, rfl, ?_, ?_⟩
  · intro h0
    have hc : animProgress elapsed * totalDist d route = 0 := by
      rw [h0]; ring
    have hci : cumAt d route i = 0 :=
      le_antisymm (hc ▸ hle) (cumAt_nonneg d route hd i)
    have hnum : animProgress elapsed * totalDist d route -
        cumAt d route i = 0 := by rw [hc, hci]; ring
    have hgd1 : route.getD i (0, 0) = p1 := by
      simp [List.getD_eq_getElem?_getD, hp1]
    have hchain := cumAt_zero_points d route hd hdz i (by omega) hci
    have h0len : 0 < route.length := by omega
    have hg0 : route[0]? = some (route.getD 0 (0, 0)) := by
      rw [List.getElem?_eq_getElem h0len]
      simp [List.getD_eq_getElem?_getD, List.getElem?_eq_getElem h0len]
    rw [hg0, ← hchain, hgd1]
    simp [hnum]
  · intro k hk hkc
    have hki : k ≤ i := by
      by_contra hgt
      have hik : i + 1 ≤ k := by omega
      have hmo := hmono hik
      rw [← hkc] at hmo
      exact absurd hlt (not_lt.mpr hmo)
    have hci : cumAt d route i = animProgress elapsed * totalDist d route :=
      le_antisymm hle (hkc ▸ hmono hki)
    have hnum : animProgress elapsed * totalDist d route -
        cumAt d route i = 0 := by rw [hci]; ring
    refine ⟨hci, by simp [hnum], ?_⟩
    rw [hci]
    exact hlt

/-- Witness for C9: on a concrete three-vertex polyline with the
taxicab distance, elapsed time 0 gives an in-range fraction and a
produced frame. -/
theorem animatedRouteMarker_spec_witness :
    0 ≤ animProgress 0 ∧ animProgress 0 < 1 ∧
    (∃ s, animateAt taxiDist bearZero routeExample 0 = some s) := by
  obtain ⟨h1, h2, h3, s, p1, p2, hs, hrest⟩ :=
    animatedRouteMarker_spec taxiDist bearZero routeExample 0 (by decide)
      taxiDist_nonneg taxiDist_eq_zero
      (by norm_num [totalDist, cumAt, taxiDist, routeExample]) le_rfl
  exact ⟨h1, h2, ⟨s, hs⟩⟩

/-- C10: whenever the per-frame computation runs (two or more vertices,
positive total length, nonnegative elapsed time), the half-open
bounding condition selects a segment of strictly positive length — it
skips segments between duplicate consecutive vertices — so the
interpolation divisor is strictly positive and a well-defined sample is
produced. -/
theorem animate_no_zero_segment (d bear : Pt → Pt → ℚ) (route : List Pt)
    (elapsed : ℚ) (hn : 2 ≤ route.length) (hd : ∀ a b, 0 ≤ d a b)
    (htot : 0 < totalDist d route) (he : 0 ≤ elapsed) :
    ∃ s, animateAt d bear route elapsed = some s ∧
      s.index + 1 < route.length ∧
      cumAt d route s.index ≤ animProgress elapsed * totalDist d route ∧
      animProgress elapsed * totalDist d route < cumAt d route (s.index + 1) ∧
      0 < cumAt d route (s.index + 1) - cumAt d route s.index := by
  obtain ⟨i, p1, p2, hi1, hp1, hp2, hle, hlt, heq⟩ :=
    animateAt_run d bear route elapsed hn hd htot
  exact ⟨_, heq, hi1, hle, hlt, by linarith⟩

/-- Witness for C10: with a polyline of duplicate-free vertices and the
taxicab distance at elapsed time 2500, a sample with a positive-length
segment is produced. -/
theorem animate_no_zero_segment_witness :
    ∃ s, animateAt taxiDist bearZero routeExample 2500 = some s ∧
      0 < cumAt taxiDist routeExample (s.index + 1) -
        cumAt taxiDist routeExample s.index := by
  obtain ⟨s, hs, hidx, hle, hlt, hpos⟩ :=
    animate_no_zero_segment taxiDist bearZero routeExample 2500 (by decide)
      taxiDist_nonneg
      (by norm_num [totalDist, cumAt, taxiDist, routeExample]) (by norm_num)
  exact ⟨s, hs, hpos⟩
